import Mathlib

/-!
Shallow embedding of the chat backend (`src/backend/main.py`,
`src/backend/services/gemini_service.py`, `src/backend/services/database.py`)
of the robotic-textbook repository, together with theorems settling the
specification claims about it.

Conventions of the embedding:
* Python strings are Lean `String`; the slice `s[:n]` is `pySlice s n`
  (the first `n` characters).
* Python `None`-able strings are `Option String`; Python truthiness of such a
  value (`if message.selected_text:`) is `pyTruthy`.
* Fallible external calls (the OpenRouter completion call, the sqlite INSERT)
  are oracles returning `Except String _`; a `.error` models a raised
  exception carrying `str(e)`.
* The handler is instrumented with an event trace recording every external
  call it makes, so that claims of the form "no Embedding Provider or
  Similarity Index call is made" are statements about the trace.  The
  environment also carries embedding/index oracles (the `qdrant_service`
  collaborator) so that such claims are not vacuous: the handler simply
  never invokes them, exactly as in the source.
* The sqlite `chat_history` table is a list of rows passed in and returned.
-/

/-- Python truthiness of an optional string: `None` and `""` are falsy. -/
def pyTruthy : Option String → Bool
  | none => false
  | some s => !s.isEmpty

/-- Python slice `s[:n]`: the first `n` characters of `s`. -/
def pySlice (s : String) (n : Nat) : String := ⟨s.data.take n⟩

/-- A `sources` entry of a chat response: the dict
`{"text": ..., "source": ...}` built in `main.py`.  The `score` field models
the optional similarity score of the spec data model; the source code never
puts a score key in the dict, so the embedding always has `score = none`. -/
structure SourceEntry where
  text : String
  source : String
  score : Option Int
deriving DecidableEq, Repr

/-- `ChatMessage` request model: `message` (required) and
`selected_text` (optional). -/
structure ChatMessage where
  message : String
  selected_text : Option String
deriving DecidableEq, Repr

/-- `ChatResponse` response model: generated text plus provenance list. -/
structure ChatResponse where
  response : String
  sources : List SourceEntry
deriving DecidableEq, Repr

/-- A row of the sqlite `chat_history` table written by
`DatabaseService.save_chat` (`database.py`): the insert stores
`(user_message, bot_response, selected_text)`. -/
structure ChatRow where
  user_message : String
  bot_response : String
  selected_text : Option String
deriving DecidableEq, Repr

/-- Outcome of an HTTP handler: a normal JSON response, or an
`HTTPException(status_code, detail)` surfaced to the caller. -/
inductive HttpResult (α : Type) where
  | ok (val : α)
  | httpError (status : Nat) (detail : String)
deriving DecidableEq, Repr

/-- One chat-message dict sent to the completion endpoint. -/
structure Message where
  role : String
  content : String
deriving DecidableEq, Repr

/-- The completion response: `response.choices`, each choice reduced to its
`message.content` text. -/
structure Completion where
  choices : List String
deriving DecidableEq, Repr

/-- External-call events emitted by the chat handler, in order. -/
inductive Event where
  | embedCall (query : String)
  | indexCall (vector : List Int) (k : Nat)
  | genCall (message context : String)
  | saveAttempt (row : ChatRow)
  | saveFailed (err : String)
deriving DecidableEq, Repr

/-- `true` exactly on Embedding Provider / Similarity Index calls. -/
def Event.isRetrieval : Event → Bool
  | .embedCall _ => true
  | .indexCall _ _ => true
  | _ => false

/-- `true` exactly on attempts to insert into `chat_history`. -/
def Event.isSaveAttempt : Event → Bool
  | .saveAttempt _ => true
  | _ => false

/-- `true` exactly on Generation Provider calls. -/
def Event.isGenCall : Event → Bool
  | .genCall _ _ => true
  | _ => false

/-- The environment of external collaborators available to the handlers:
the OpenRouter completion call used by `GeminiService`, the sqlite insert of
`DatabaseService.save_chat` (`.error` = the insert raises), and the
`qdrant_service` embedding / similarity-search capabilities (present in the
process, as in `main.py`, whether or not the chat handler uses them).
Index results are `(fragmentText, sourceMetadata, similarityScore)` triples;
scores are modelled as integers scaled by 100 since the handler never reads
them. -/
structure ChatEnv where
  complete : List Message → Except String Completion
  dbSave : ChatRow → Except String Unit
  embed : String → Except String (List Int)
  indexQuery : List Int → Nat → Except String (List (String × String × Int))

/-- The fixed system message of `GeminiService.generate_response`. -/
def SYSTEM_MESSAGE : String := "You are a helpful robotics and AI assistant."

/-- The first line of the `full_prompt` template in
`GeminiService.generate_response`: the fixed preamble identifying the
assistant domain. -/
def CHAT_PREAMBLE : String :=
  "You are a helpful assistant for a Physical AI & Humanoid Robotics textbook."

/-- The `full_prompt` f-string of `GeminiService.generate_response`:
preamble, context block, user question, closing instruction. -/
def full_prompt (prompt context : String) : String :=
  CHAT_PREAMBLE ++ "\n\nContext: " ++ context ++ "\n\nUser Question: "
    ++ prompt ++ "\n\nProvide a clear, accurate answer based on the context."

/-- The `messages` array passed to the completion endpoint by
`GeminiService.generate_response`. -/
def generate_response_messages (prompt context : String) : List Message :=
  [⟨"system", SYSTEM_MESSAGE⟩, ⟨"user", full_prompt prompt context⟩]

/-- `GeminiService.generate_response`: compose the prompt, call the
completion endpoint, return `response.choices[0].message.content`.  A missing
choice raises `IndexError` (modelled as an error string), a provider fault
propagates. -/
def generate_response (complete : List Message → Except String Completion)
    (prompt context : String) : Except String String :=
  match complete (generate_response_messages prompt context) with
  | .error e => .error e
  | .ok resp =>
    match resp.choices with
    | [] => .error "list index out of range"
    | c :: _ => .ok c

/-- The static context string of the `else` branch of the chat handler
(`main.py`, the triple-quoted literal, indentation included). -/
def FALLBACK_CONTEXT : String :=
  "You are a helpful assistant for a Physical AI & Humanoid Robotics textbook. \n            Answer questions about ROS 2, Gazebo, NVIDIA Isaac, humanoid robots, and robotics in general.\n            Be clear, technical but accessible, and provide practical examples when possible."

/-- The single `sources` entry of the `else` branch of the chat handler. -/
def AI_SOURCE : SourceEntry :=
  { text := "AI Knowledge Base", source := "AI", score := none }

/-- The `context` assignment of the chat handler branch on
`if message.selected_text:` — the selected text itself when truthy, the
static fallback instruction otherwise. -/
def chatContext (selected_text : Option String) : String :=
  if pyTruthy selected_text then selected_text.getD "" else FALLBACK_CONTEXT

/-- The `sources` assignment of the same branch:
`[{"text": message.selected_text[:200] + "...", "source": "Selected Text"}]`
when truthy, `[{"text": "AI Knowledge Base", "source": "AI"}]` otherwise.
Note the source appends the `"..."` marker unconditionally. -/
def chatSources (selected_text : Option String) : List SourceEntry :=
  if pyTruthy selected_text then
    [{ text := pySlice (selected_text.getD "") 200 ++ "..."
     , source := "Selected Text", score := none }]
  else [AI_SOURCE]

/-- The `POST /chat` handler of `main.py`.

Mirrors the source: pick context and sources from `message.selected_text`
truthiness (the two per-branch assignments are factored into `chatContext`
and `chatSources`); call
`gemini_service.generate_response(message.message, context)` — an exception
there is caught by the outer `except` and re-raised as
`HTTPException(500, str(e))`; otherwise try `db_service.save_chat(...)`,
swallowing any exception with a printed warning; return
`ChatResponse(response=response, sources=sources)`.

Returns the HTTP outcome, the updated `chat_history` table, and the ordered
trace of external calls made. -/
def chat (env : ChatEnv) (db : List ChatRow) (message : ChatMessage) :
    HttpResult ChatResponse × List ChatRow × List Event :=
  let context := chatContext message.selected_text
  let sources := chatSources message.selected_text
  match generate_response env.complete message.message context with
  | .error e =>
    (.httpError 500 e, db, [.genCall message.message context])
  | .ok response =>
    let row : ChatRow :=
      ⟨message.message, response, message.selected_text⟩
    match env.dbSave row with
    | .error dbErr =>
      (.ok ⟨response, sources⟩, db,
        [.genCall message.message context, .saveAttempt row, .saveFailed dbErr])
    | .ok _ =>
      (.ok ⟨response, sources⟩, db ++ [row],
        [.genCall message.message context, .saveAttempt row])

/-- Python exceptions relevant to the auth handlers: a raised
`HTTPException(status, detail)` or any other exception with its message. -/
inductive PyExc where
  | http (status : Nat) (detail : String)
  | other (msg : String)
deriving DecidableEq, Repr

/-- Python `str(e)`.  FastAPI `HTTPException` initialises
`Exception.__init__(detail)`, so `str(e)` is the detail string. -/
def strExc : PyExc → String
  | .http _ d => d
  | .other m => m

/-- Result dict of `db_service.authenticate_user`.
Modelled from the spec: `authenticate_user` itself is not under `src/`
(only its callers in `main.py` are); the spec describes the credential
collaborator only through `{"success": bool, "message"/"user": ...}` as
consumed by the handlers. -/
structure AuthResult where
  success : Bool
  message : String
  user : String
deriving DecidableEq, Repr

/-- Result dict of `db_service.create_user`.
Modelled from the spec: `create_user` itself is not under `src/`; the
handlers consume only `result["success"]` and `result["message"]`. -/
structure CreateResult where
  success : Bool
  message : String
deriving DecidableEq, Repr

/-- Successful signin/signup payload `{"success": True, "user": ...}`. -/
structure AuthOk where
  user : String
deriving DecidableEq, Repr

/-- Body of the `try` block of the `POST /signin` handler: authenticate,
return the user on success, otherwise `raise HTTPException(401, message)`. -/
def signin_body (authenticate : String → String → AuthResult)
    (email password : String) : Except PyExc AuthOk :=
  let result := authenticate email password
  if result.success then .ok ⟨result.user⟩
  else .error (.http 401 result.message)

/-- The `POST /signin` handler of `main.py`: the whole body runs inside
`try: ... except Exception as e: raise HTTPException(500, str(e))`.
`HTTPException` is a subclass of `Exception`, so the 401 raised in the body
is itself caught here and re-raised with status 500. -/
def signin (authenticate : String → String → AuthResult)
    (email password : String) : HttpResult AuthOk :=
  match signin_body authenticate email password with
  | .ok v => .ok v
  | .error e => .httpError 500 (strExc e)

/-- Body of the `try` block of the `POST /signup` handler: create the user,
then authenticate and return the user on success, otherwise
`raise HTTPException(400, message)`. -/
def signup_body (create : String → String → String → CreateResult)
    (authenticate : String → String → AuthResult)
    (name email password : String) : Except PyExc AuthOk :=
  let result := create name email password
  if result.success then
    let auth := authenticate email password
    .ok ⟨auth.user⟩
  else .error (.http 400 result.message)

/-- The `POST /signup` handler of `main.py`: like `signin`, the body runs
inside a catch-all `except Exception` that re-raises everything — the 400
included — as `HTTPException(500, str(e))`. -/
def signup (create : String → String → String → CreateResult)
    (authenticate : String → String → AuthResult)
    (name email password : String) : HttpResult AuthOk :=
  match signup_body create authenticate name email password with
  | .ok v => .ok v
  | .error e => .httpError 500 (strExc e)

/-! ### Concrete test environments, used to instantiate the theorems -/

/-- A fully healthy environment: the completion endpoint answers, the sqlite
insert succeeds, the embedding call works, and the similarity index holds
three scored passages in descending-score order. -/
def healthyIndexEnv : ChatEnv :=
  { complete := fun _ => .ok ⟨["Sure."]⟩
    dbSave := fun _ => .ok ()
    embed := fun _ => .ok [1, 0, 0]
    indexQuery := fun _ k =>
      .ok (([("Fragment A", "ch1", 91), ("Fragment B", "ch2", 85),
             ("Fragment C", "ch3", 80)] : List (String × String × Int)).take k) }

/-- An environment whose Generation Provider call always raises. -/
def genFailEnv : ChatEnv :=
  { complete := fun _ => .error "503 Service Unavailable"
    dbSave := fun _ => .ok ()
    embed := fun _ => .ok [1, 0, 0]
    indexQuery := fun _ _ => .ok [] }

/-- An environment whose sqlite insert always raises, and whose completion
endpoint returns a different answer text than `healthyIndexEnv`. -/
def dbFailEnv : ChatEnv :=
  { complete := fun _ => .ok ⟨["A different answer."]⟩
    dbSave := fun _ => .error "disk I O error"
    embed := fun _ => .ok [1, 0, 0]
    indexQuery := fun _ _ => .ok [] }

/-! ### Equation lemmas for the chat handler -/

/-- If the Generation Provider call raises, the handler returns 500, leaves
the table unchanged, and the trace stops at the generation call. -/
theorem chat_gen_error (env : ChatEnv) (db : List ChatRow) (m : ChatMessage) (e : String)
    (h : generate_response env.complete m.message (chatContext m.selected_text) = .error e) :
    chat env db m =
      (.httpError 500 e, db, [.genCall m.message (chatContext m.selected_text)]) := by
  unfold chat
  dsimp only
  rw [h]

/-- If generation succeeds and the insert raises, the handler still returns
the answer, the table is unchanged, and the trace records the failed save. -/
theorem chat_gen_ok_save_error (env : ChatEnv) (db : List ChatRow) (m : ChatMessage)
    (resp dbErr : String)
    (h : generate_response env.complete m.message (chatContext m.selected_text) = .ok resp)
    (hs : env.dbSave ⟨m.message, resp, m.selected_text⟩ = .error dbErr) :
    chat env db m =
      (.ok ⟨resp, chatSources m.selected_text⟩, db,
        [.genCall m.message (chatContext m.selected_text),
         .saveAttempt ⟨m.message, resp, m.selected_text⟩, .saveFailed dbErr]) := by
  unfold chat
  dsimp only
  rw [h]
  dsimp only
  rw [hs]

/-- If generation and the insert both succeed, the handler returns the
answer and appends one row to `chat_history`. -/
theorem chat_gen_ok_save_ok (env : ChatEnv) (db : List ChatRow) (m : ChatMessage)
    (resp : String)
    (h : generate_response env.complete m.message (chatContext m.selected_text) = .ok resp)
    (hs : env.dbSave ⟨m.message, resp, m.selected_text⟩ = .ok ()) :
    chat env db m =
      (.ok ⟨resp, chatSources m.selected_text⟩, db ++ [⟨m.message, resp, m.selected_text⟩],
        [.genCall m.message (chatContext m.selected_text),
         .saveAttempt ⟨m.message, resp, m.selected_text⟩]) := by
  unfold chat
  dsimp only
  rw [h]
  dsimp only
  rw [hs]

/-- Every successful response carries exactly the sources computed by the
branch on `selected_text`. -/
theorem chat_ok_sources (env : ChatEnv) (db : List ChatRow) (m : ChatMessage) (r : ChatResponse)
    (hok : (chat env db m).1 = .ok r) :
    r.sources = chatSources m.selected_text := by
  cases hg : generate_response env.complete m.message (chatContext m.selected_text) with
  | error e =>
    rw [chat_gen_error env db m e hg] at hok
    exact absurd hok (by simp)
  | ok resp =>
    cases hs : env.dbSave ⟨m.message, resp, m.selected_text⟩ with
    | error dbErr =>
      rw [chat_gen_ok_save_error env db m resp dbErr hg hs] at hok
      cases hok
      rfl
    | ok u =>
      cases u
      rw [chat_gen_ok_save_ok env db m resp hg hs] at hok
      cases hok
      rfl

/-- The chat handler never emits an Embedding Provider or Similarity Index
call, on any input and in any environment. -/
theorem chat_no_retrieval (env : ChatEnv) (db : List ChatRow) (m : ChatMessage) :
    ((chat env db m).2.2.all fun ev => !ev.isRetrieval) = true := by
  cases hg : generate_response env.complete m.message (chatContext m.selected_text) with
  | error e =>
    rw [chat_gen_error env db m e hg]
    simp [Event.isRetrieval]
  | ok resp =>
    cases hs : env.dbSave ⟨m.message, resp, m.selected_text⟩ with
    | error dbErr =>
      rw [chat_gen_ok_save_error env db m resp dbErr hg hs]
      simp [Event.isRetrieval]
    | ok u =>
      cases u
      rw [chat_gen_ok_save_ok env db m resp hg hs]
      simp [Event.isRetrieval]

/-- The handler makes exactly one Generation Provider call, with the context
selected by the branch on `selected_text`. -/
theorem chat_gen_calls (env : ChatEnv) (db : List ChatRow) (m : ChatMessage) :
    ((chat env db m).2.2.filter Event.isGenCall)
      = [.genCall m.message (chatContext m.selected_text)] := by
  cases hg : generate_response env.complete m.message (chatContext m.selected_text) with
  | error e =>
    rw [chat_gen_error env db m e hg]
    simp [Event.isGenCall]
  | ok resp =>
    cases hs : env.dbSave ⟨m.message, resp, m.selected_text⟩ with
    | error dbErr =>
      rw [chat_gen_ok_save_error env db m resp dbErr hg hs]
      simp [Event.isGenCall]
    | ok u =>
      cases u
      rw [chat_gen_ok_save_ok env db m resp hg hs]
      simp [Event.isGenCall]

/-- The Python slice `s[:n]` yields `min n s.length` characters. -/
theorem pySlice_length (s : String) (n : Nat) : (pySlice s n).length = min n s.length := by
  show (s.data.take n).length = min n s.length
  rw [List.length_take, String.length_data]

/-! ### Claim theorems -/

/-- C1: for every chat request whose `selected_text` is present and
non-empty, the sources list of a successful response is exactly one
fragment labelled "Selected Text" carrying no similarity score (its text is
the 200-character slice of the selection with the marker appended), and the
trace of the request contains no Embedding Provider or Similarity Index
call. -/
theorem chat_selectedText_single_source_no_retrieval
    (env : ChatEnv) (db : List ChatRow) (q st : String) (r : ChatResponse)
    (hst : st ≠ "") (hok : (chat env db ⟨q, some st⟩).1 = .ok r) :
    r.sources
      = [{ text := pySlice st 200 ++ "...", source := "Selected Text", score := none }] ∧
    ((chat env db ⟨q, some st⟩).2.2.all fun ev => !ev.isRetrieval) = true := by
  refine ⟨?_, chat_no_retrieval env db ⟨q, some st⟩⟩
  rw [chat_ok_sources env db ⟨q, some st⟩ r hok]
  simp [chatSources, pyTruthy, String.isEmpty_iff, hst]

/-- Witness for C1 at a concrete request with a non-empty selection. -/
theorem chat_selectedText_single_source_no_retrieval_witness :
    ("A node performs computation." ≠ "") ∧
    ((chat healthyIndexEnv [] ⟨"Explain this", some "A node performs computation."⟩).1
      = .ok ⟨"Sure.", [{ text := pySlice "A node performs computation." 200 ++ "..."
                       , source := "Selected Text", score := none }]⟩) ∧
    ((ChatResponse.mk "Sure." [{ text := pySlice "A node performs computation." 200 ++ "..."
                               , source := "Selected Text", score := none }]).sources
      = [{ text := pySlice "A node performs computation." 200 ++ "..."
         , source := "Selected Text", score := none }] ∧
     ((chat healthyIndexEnv [] ⟨"Explain this", some "A node performs computation."⟩).2.2.all
        fun ev => !ev.isRetrieval) = true) :=
  ⟨by decide, rfl,
   chat_selectedText_single_source_no_retrieval healthyIndexEnv [] "Explain this"
     "A node performs computation." _ (by decide) rfl⟩

/-- C2, counterexample: with an absent `selected_text` and a healthy
Similarity Index holding three descending-score results, the handler makes
no Embedding Provider or Similarity Index call and returns the single
static AI fragment — its length 1 differs from min(k, resultsAvailable)
= min 3 3 = 3, refuting the claim as stated. -/
theorem chat_retrieval_claim_counterexample :
    pyTruthy none = false ∧
    healthyIndexEnv.indexQuery [1, 0, 0] 3
      = .ok [("Fragment A", "ch1", 91), ("Fragment B", "ch2", 85), ("Fragment C", "ch3", 80)] ∧
    ((chat healthyIndexEnv [] ⟨"What is ROS 2?", none⟩).2.2.all fun ev => !ev.isRetrieval) = true ∧
    (chat healthyIndexEnv [] ⟨"What is ROS 2?", none⟩).1 = .ok ⟨"Sure.", [AI_SOURCE]⟩ ∧
    [AI_SOURCE].length ≠ min 3 3 :=
  ⟨rfl, rfl, rfl, rfl, by decide⟩

/-- C2, amended: for every chat request with empty or absent
`selected_text`, regardless of index health, the handler makes no Embedding
Provider or Similarity Index call and a successful response carries the
single static AI-labelled fragment. -/
theorem chat_empty_selection_no_retrieval_ai_source
    (env : ChatEnv) (db : List ChatRow) (q : String) (st : Option String) (r : ChatResponse)
    (hst : pyTruthy st = false) (hok : (chat env db ⟨q, st⟩).1 = .ok r) :
    ((chat env db ⟨q, st⟩).2.2.all fun ev => !ev.isRetrieval) = true ∧
    r.sources = [AI_SOURCE] := by
  refine ⟨chat_no_retrieval env db ⟨q, st⟩, ?_⟩
  rw [chat_ok_sources env db ⟨q, st⟩ r hok]
  simp [chatSources, hst]

/-- Witness for the amended C2 at a concrete request with absent
selection. -/
theorem chat_empty_selection_no_retrieval_ai_source_witness :
    pyTruthy none = false ∧
    ((chat dbFailEnv [] ⟨"What is ROS 2?", none⟩).1 = .ok ⟨"A different answer.", [AI_SOURCE]⟩) ∧
    (((chat dbFailEnv [] ⟨"What is ROS 2?", none⟩).2.2.all fun ev => !ev.isRetrieval) = true ∧
     (ChatResponse.mk "A different answer." [AI_SOURCE]).sources = [AI_SOURCE]) :=
  ⟨rfl, rfl,
   chat_empty_selection_no_retrieval_ai_source dbFailEnv [] "What is ROS 2?" none _ rfl rfl⟩

/-- C3, counterexample: for the two-character selection "hi" — far shorter
than the 200-character bound — the emitted excerpt is "hi...", not the
fragment text itself: the truncation marker is appended even though nothing
was cut, refuting the claim as stated. -/
theorem excerpt_claim_counterexample :
    (chat healthyIndexEnv [] ⟨"Explain this", some "hi"⟩).1
      = .ok ⟨"Sure.", [{ text := "hi...", source := "Selected Text", score := none }]⟩ ∧
    ("hi" : String).length < 200 ∧
    ("hi..." : String) ≠ "hi" :=
  ⟨by decide, by decide, by decide⟩

/-- C3, amended: every excerpt in the sources of a successful chat response
has length at most 203 (the 200-character preview bound plus the
3-character marker), and in the selected-text branch the excerpt is the
200-character slice of the fragment with the marker appended
unconditionally — it does not equal the fragment text even when the
fragment is shorter than the bound. -/
theorem chat_excerpt_bounded
    (env : ChatEnv) (db : List ChatRow) (m : ChatMessage) (r : ChatResponse) (e : SourceEntry)
    (hok : (chat env db m).1 = .ok r) (he : e ∈ r.sources) :
    e.text.length ≤ 203 ∧
    (pyTruthy m.selected_text = true →
      e.text = pySlice (m.selected_text.getD "") 200 ++ "...") := by
  rw [chat_ok_sources env db m r hok] at he
  unfold chatSources at he
  by_cases hst : pyTruthy m.selected_text
  · rw [if_pos hst] at he
    rw [List.mem_singleton] at he
    subst he
    refine ⟨?_, fun _ => rfl⟩
    show (pySlice (m.selected_text.getD "") 200 ++ "...").length ≤ 203
    rw [String.length_append, pySlice_length]
    have h1 : min 200 (m.selected_text.getD "").length ≤ 200 := min_le_left _ _
    have h2 : ("..." : String).length = 3 := by decide
    omega
  · rw [if_neg hst] at he
    rw [List.mem_singleton] at he
    subst he
    exact ⟨by decide, fun h => absurd h hst⟩

/-- Witness for the amended C3 at a concrete short selection. -/
theorem chat_excerpt_bounded_witness :
    ((chat healthyIndexEnv [] ⟨"Explain this", some "hi"⟩).1
      = .ok ⟨"Sure.", [{ text := "hi...", source := "Selected Text", score := none }]⟩) ∧
    (({ text := "hi...", source := "Selected Text", score := none } : SourceEntry)
      ∈ (ChatResponse.mk "Sure." [{ text := "hi...", source := "Selected Text", score := none }]).sources) ∧
    (({ text := "hi...", source := "Selected Text", score := none } : SourceEntry).text.length ≤ 203 ∧
     (pyTruthy (some "hi") = true →
      ({ text := "hi...", source := "Selected Text", score := none } : SourceEntry).text
        = pySlice ((some "hi").getD "") 200 ++ "...")) :=
  ⟨rfl, by decide,
   chat_excerpt_bounded healthyIndexEnv [] ⟨"Explain this", some "hi"⟩ _ _ rfl (by decide)⟩

/-- C4: for every chat request with empty or absent `selected_text`
(the handler always operates in degraded mode — it never uses the
embedding/index capability), the single Generation Provider call receives
the static domain-priming instruction as its context, and a successful
response carries exactly one source entry, labelled "AI". -/
theorem chat_degraded_context_and_ai_source
    (env : ChatEnv) (db : List ChatRow) (q : String) (st : Option String) (r : ChatResponse)
    (hst : pyTruthy st = false) (hok : (chat env db ⟨q, st⟩).1 = .ok r) :
    ((chat env db ⟨q, st⟩).2.2.filter Event.isGenCall) = [.genCall q FALLBACK_CONTEXT] ∧
    r.sources = [AI_SOURCE] ∧ r.sources.length = 1 := by
  have hctx : chatContext st = FALLBACK_CONTEXT := by
    unfold chatContext
    rw [hst]
    rfl
  refine ⟨?_, ?_, ?_⟩
  · have h := chat_gen_calls env db ⟨q, st⟩
    rw [hctx] at h
    exact h
  · rw [chat_ok_sources env db ⟨q, st⟩ r hok]
    simp [chatSources, hst]
  · rw [chat_ok_sources env db ⟨q, st⟩ r hok]
    simp [chatSources, hst]

/-- Witness for C4 at a concrete request with absent selection. -/
theorem chat_degraded_context_and_ai_source_witness :
    pyTruthy none = false ∧
    ((chat healthyIndexEnv [] ⟨"What is ROS 2?", none⟩).1 = .ok ⟨"Sure.", [AI_SOURCE]⟩) ∧
    (((chat healthyIndexEnv [] ⟨"What is ROS 2?", none⟩).2.2.filter Event.isGenCall)
        = [.genCall "What is ROS 2?" FALLBACK_CONTEXT] ∧
     (ChatResponse.mk "Sure." [AI_SOURCE]).sources = [AI_SOURCE] ∧
     (ChatResponse.mk "Sure." [AI_SOURCE]).sources.length = 1) :=
  ⟨rfl, rfl,
   chat_degraded_context_and_ai_source healthyIndexEnv [] "What is ROS 2?" none _ rfl rfl⟩

/-- C5: for every chat request, if the Generation Provider call raises, the
caller receives HTTP 500 with the error detail, the `chat_history` table is
unchanged, and no insert into it is even attempted. -/
theorem chat_generation_failure_500_no_record
    (env : ChatEnv) (db : List ChatRow) (m : ChatMessage) (e : String)
    (hgen : generate_response env.complete m.message (chatContext m.selected_text) = .error e) :
    (chat env db m).1 = .httpError 500 e ∧
    (chat env db m).2.1 = db ∧
    ((chat env db m).2.2.all fun ev => !ev.isSaveAttempt) = true := by
  rw [chat_gen_error env db m e hgen]
  exact ⟨rfl, rfl, by simp [Event.isSaveAttempt]⟩

/-- Witness for C5 in an environment whose provider always raises. -/
theorem chat_generation_failure_500_no_record_witness :
    (generate_response genFailEnv.complete "What is ROS 2?" (chatContext none)
      = .error "503 Service Unavailable") ∧
    ((chat genFailEnv [] ⟨"What is ROS 2?", none⟩).1
        = .httpError 500 "503 Service Unavailable" ∧
     (chat genFailEnv [] ⟨"What is ROS 2?", none⟩).2.1 = [] ∧
     ((chat genFailEnv [] ⟨"What is ROS 2?", none⟩).2.2.all fun ev => !ev.isSaveAttempt) = true) :=
  ⟨rfl,
   chat_generation_failure_500_no_record genFailEnv [] ⟨"What is ROS 2?", none⟩
     "503 Service Unavailable" rfl⟩

/-- C6: the HTTP outcome of a chat request is entirely independent of the
persistence step — two environments that differ only in the behaviour of
the `chat_history` insert produce the same answer (text and sources), so a
swallowed persistence failure never alters what the caller receives. -/
theorem chat_response_independent_of_persistence
    (complete : List Message → Except String Completion)
    (ds1 ds2 : ChatRow → Except String Unit)
    (embed : String → Except String (List Int))
    (iq : List Int → Nat → Except String (List (String × String × Int)))
    (db : List ChatRow) (m : ChatMessage) :
    (chat ⟨complete, ds1, embed, iq⟩ db m).1 = (chat ⟨complete, ds2, embed, iq⟩ db m).1 := by
  cases hg : generate_response complete m.message (chatContext m.selected_text) with
  | error e =>
    rw [chat_gen_error ⟨complete, ds1, embed, iq⟩ db m e hg,
        chat_gen_error ⟨complete, ds2, embed, iq⟩ db m e hg]
  | ok resp =>
    have step : ∀ ds : ChatRow → Except String Unit,
        (chat ⟨complete, ds, embed, iq⟩ db m).1
          = .ok ⟨resp, chatSources m.selected_text⟩ := by
      intro ds
      cases hs : ds ⟨m.message, resp, m.selected_text⟩ with
      | error dbErr =>
        rw [chat_gen_ok_save_error ⟨complete, ds, embed, iq⟩ db m resp dbErr hg hs]
      | ok u =>
        cases u
        rw [chat_gen_ok_save_ok ⟨complete, ds, embed, iq⟩ db m resp hg hs]
    rw [step ds1, step ds2]

/-- C7: for every question and context, the prompt sent to the Generation
Provider decomposes as the fixed domain preamble, then a middle block
containing the context, then the literal question, then the closing
instruction — so the preamble precedes the question, with the context block
in between; and the message array sent to the endpoint consists of the
fixed system message followed by exactly this prompt. -/
theorem full_prompt_preamble_precedes_question (q c : String) :
    (∃ mid tail,
      full_prompt q c = CHAT_PREAMBLE ++ mid ++ q ++ tail ∧
      (∃ pre post, mid = pre ++ c ++ post)) ∧
    (generate_response_messages q c).map Message.content
      = [SYSTEM_MESSAGE, full_prompt q c] := by
  refine ⟨⟨"\n\nContext: " ++ c ++ "\n\nUser Question: ",
    "\n\nProvide a clear, accurate answer based on the context.", ?_,
    "\n\nContext: ", "\n\nUser Question: ", rfl⟩, rfl⟩
  unfold full_prompt
  simp only [String.append_assoc]

/-- C8: evaluation of the auth handlers at failing inputs.  The handler
bodies do raise `HTTPException(401)` for a failed authentication and
`HTTPException(400)` for a failed user creation, but each body runs inside
`except Exception`, which catches `HTTPException` (a subclass of
`Exception`) and re-raises it with status 500 — so the caller receives 500
in both cases, contradicting the claimed 401/400. -/
theorem signin_auth_failure_actually_500 :
    signin_body (fun _ _ => ⟨false, "Invalid credentials", ""⟩) "user@example.com" "wrongpass"
      = .error (.http 401 "Invalid credentials") ∧
    signin (fun _ _ => ⟨false, "Invalid credentials", ""⟩) "user@example.com" "wrongpass"
      = .httpError 500 "Invalid credentials" ∧
    signup_body (fun _ _ _ => ⟨false, "Email already registered"⟩) (fun _ _ => ⟨true, "", "u1"⟩)
      "Sam" "user@example.com" "pw"
      = .error (.http 400 "Email already registered") ∧
    signup (fun _ _ _ => ⟨false, "Email already registered"⟩) (fun _ _ => ⟨true, "", "u1"⟩)
      "Sam" "user@example.com" "pw"
      = .httpError 500 "Email already registered" :=
  ⟨rfl, rfl, rfl, rfl⟩

/-- C9: two chat requests with the same message and the same
`selected_text` yield identical sources lists (text, label and score),
whatever the environments, tables, and generated answer texts — the
provenance is a deterministic function of the selection alone. -/
theorem chat_sources_deterministic
    (e1 e2 : ChatEnv) (db1 db2 : List ChatRow) (m : ChatMessage) (r1 r2 : ChatResponse)
    (h1 : (chat e1 db1 m).1 = .ok r1) (h2 : (chat e2 db2 m).1 = .ok r2) :
    r1.sources = r2.sources := by
  rw [chat_ok_sources e1 db1 m r1 h1, chat_ok_sources e2 db2 m r2 h2]

/-- Witness for C9: two environments whose providers answer differently
still produce equal sources for the same request. -/
theorem chat_sources_deterministic_witness :
    ((chat healthyIndexEnv [] ⟨"What is ROS 2?", none⟩).1 = .ok ⟨"Sure.", [AI_SOURCE]⟩) ∧
    ((chat dbFailEnv [] ⟨"What is ROS 2?", none⟩).1 = .ok ⟨"A different answer.", [AI_SOURCE]⟩) ∧
    ("Sure." ≠ "A different answer.") ∧
    ((ChatResponse.mk "Sure." [AI_SOURCE]).sources
      = (ChatResponse.mk "A different answer." [AI_SOURCE]).sources) :=
  ⟨rfl, rfl, by decide,
   chat_sources_deterministic healthyIndexEnv dbFailEnv [] [] ⟨"What is ROS 2?", none⟩
     _ _ rfl rfl⟩

/-- C10: every successful chat response has exactly one source entry; an
empty-string `selected_text` produces the same HTTP outcome as an absent
one, and in that case the single entry is the AI-labelled fallback. -/
theorem chat_single_source_empty_equals_absent
    (env : ChatEnv) (db : List ChatRow) (m : ChatMessage) (r : ChatResponse)
    (hok : (chat env db m).1 = .ok r) :
    r.sources.length = 1 ∧
    (chat env db ⟨m.message, some ""⟩).1 = (chat env db ⟨m.message, none⟩).1 ∧
    (m.selected_text = some "" → r.sources = [AI_SOURCE]) := by
  refine ⟨?_, ?_, ?_⟩
  · rw [chat_ok_sources env db m r hok]
    unfold chatSources
    by_cases hst : pyTruthy m.selected_text
    · rw [if_pos hst]; rfl
    · rw [if_neg hst]; rfl
  · cases hg : generate_response env.complete m.message FALLBACK_CONTEXT with
    | error e =>
      rw [chat_gen_error env db ⟨m.message, some ""⟩ e hg,
          chat_gen_error env db ⟨m.message, none⟩ e hg]
    | ok resp =>
      have step : ∀ st : Option String, pyTruthy st = false →
          (chat env db ⟨m.message, st⟩).1 = .ok ⟨resp, [AI_SOURCE]⟩ := by
        intro st hst
        have hctx : chatContext st = FALLBACK_CONTEXT := by
          unfold chatContext; rw [hst]; rfl
        have hsrc : chatSources st = [AI_SOURCE] := by
          unfold chatSources; rw [hst]; rfl
        have hg2 : generate_response env.complete m.message (chatContext st) = .ok resp := by
          rw [hctx]; exact hg
        cases hs : env.dbSave ⟨m.message, resp, st⟩ with
        | error dbErr =>
          rw [chat_gen_ok_save_error env db ⟨m.message, st⟩ resp dbErr hg2 hs]
          rw [hsrc]
        | ok u =>
          cases u
          rw [chat_gen_ok_save_ok env db ⟨m.message, st⟩ resp hg2 hs]
          rw [hsrc]
      rw [step (some "") rfl, step none rfl]
  · intro hsel
    rw [chat_ok_sources env db m r hok, hsel]
    rfl

/-- Witness for C10 at a concrete request with an empty-string selection. -/
theorem chat_single_source_empty_equals_absent_witness :
    ((chat healthyIndexEnv [] ⟨"hello", some ""⟩).1 = .ok ⟨"Sure.", [AI_SOURCE]⟩) ∧
    ((ChatResponse.mk "Sure." [AI_SOURCE]).sources.length = 1 ∧
     (chat healthyIndexEnv [] ⟨"hello", some ""⟩).1
        = (chat healthyIndexEnv [] ⟨"hello", none⟩).1 ∧
     ((⟨"hello", some ""⟩ : ChatMessage).selected_text = some "" →
       (ChatResponse.mk "Sure." [AI_SOURCE]).sources = [AI_SOURCE])) :=
  ⟨rfl,
   chat_single_source_empty_equals_absent healthyIndexEnv [] ⟨"hello", some ""⟩ _ rfl⟩
